import Mathlib

/-!
Verification of the blogbuilder word-validation and content-pipeline core.

The development shallowly embeds the two POST API handlers
(`pages/api/generate.ts`, the AI generation pipeline, and the manual
blog-creation handler) as pure Lean functions.  JavaScript string
operations are modelled on the character sequence (`List Char`) of the
Lean `String`; external collaborators (the completion provider, the
identity service, the markdown renderer `marked`, and the database
insert) are passed in as explicit function arguments, and the handler
result records the produced HTTP response together with an effect trace:
whether the completion provider was invoked, which rows were passed to
the database insert (in call order), and which rows were successfully
stored.
-/

deriving instance DecidableEq for Except

/-- ASCII letter, the character class `[a-zA-Z]` of the validation regex. -/
def isAsciiLetter (c : Char) : Bool :=
  ('A' ≤ c && c ≤ 'Z') || ('a' ≤ c && c ≤ 'z')

/-- ASCII digit, `[0-9]`. -/
def isAsciiDigit (c : Char) : Bool :=
  '0' ≤ c && c ≤ '9'

/-- ASCII alphanumeric, the class kept by `slugify`'s `strict` mode. -/
def isAsciiAlphanum (c : Char) : Bool :=
  isAsciiLetter c || isAsciiDigit c

/-- JavaScript whitespace (the `\s` class / `String.prototype.trim`),
restricted to the code points that can occur in this pipeline's inputs. -/
def isJsWs (c : Char) : Bool :=
  c = ' ' || c = '\t' || c = '\n' || c = '\r' || c = '\x0b' || c = '\x0c' ||
  c = '\u00A0' || c = '\uFEFF'

/-- Model of `String.prototype.trim` on the character list: drop leading
and trailing whitespace. -/
def jsTrimList (l : List Char) : List Char :=
  ((l.dropWhile isJsWs).reverse.dropWhile isJsWs).reverse

/-- The `word.trim()` call of the handlers. -/
def jsTrim (s : String) : String :=
  String.mk (jsTrimList s.data)

/-- The `toLowerCase` conversion (ASCII model; the validated words are ASCII letters). -/
def jsToLower (s : String) : String :=
  String.mk (s.data.map Char.toLower)

/-- JavaScript `String.prototype.split(sep)` on character lists: splits at
every separator occurrence, keeping empty pieces (so `"".split` gives one
empty piece). -/
def splitChar (sep : Char) : List Char → List (List Char)
  | [] => [[]]
  | c :: rest =>
    if c = sep then [] :: splitChar sep rest
    else
      match splitChar sep rest with
      | [] => [[c]]
      | h :: t => (c :: h) :: t

/-- The split of the generated text at newlines, as in the title-extraction step. -/
def jsLines (s : String) : List String :=
  (splitChar '\n' s.data).map String.mk

/-- JavaScript `String.prototype.replace(pat, repl)` with a string
pattern: replace the first occurrence only. -/
def listReplaceFirst (pat repl : List Char) : List Char → List Char
  | [] => if pat.isEmpty then repl else []
  | c :: rest =>
    if pat.isPrefixOf (c :: rest) then repl ++ (c :: rest).drop pat.length
    else c :: listReplaceFirst pat repl rest

/-- String version of the first-occurrence replacement. -/
def jsReplaceFirst (s pat repl : String) : String :=
  String.mk (listReplaceFirst pat.data repl.data s.data)

/-- JavaScript `String.prototype.includes(pat)`: substring containment. -/
def listContainsSub (pat : List Char) : List Char → Bool
  | [] => pat.isEmpty
  | c :: rest => pat.isPrefixOf (c :: rest) || listContainsSub pat rest

/-- String version of substring containment. -/
def jsIncludesSub (s pat : String) : Bool :=
  listContainsSub pat.data s.data

/-- The token extraction used by both handlers: drop the first occurrence
of the pattern made of the word Bearer followed by one space. -/
def bearerToken (h : String) : String :=
  jsReplaceFirst h "Bearer " ""

/-- Rejection reasons of the server-side word validator
(`pages/api/generate.ts` lines 21-41), one per early-return branch. -/
inductive ValidationError where
  | EmptyInput
  | MultiWordInput
  | NonLetterCharacters
  | TooShort
  | TooLong
deriving DecidableEq

/-- The user-facing 400 message of each validator branch. -/
def validationMessage : ValidationError → String
  | .EmptyInput => "Word cannot be empty"
  | .MultiWordInput => "Please enter only ONE word (no spaces allowed)"
  | .NonLetterCharacters => "Please enter only letters (no numbers or special characters)"
  | .TooShort => "Word must be at least 2 characters long"
  | .TooLong => "Word must be less than 20 characters long"

/-- The server-side word validator of `pages/api/generate.ts` lines 21-41:
trim, then reject in order empty / contains a space / not `^[a-zA-Z]+$` /
shorter than 2 / longer than 20; on success return the trimmed word.
(`trimmedWord.includes(' ')` for the single-character pattern `' '` is
"some character equals `' '`"; the regex test on a string already known
non-empty is "every character is an ASCII letter".) -/
def validateWord (word : String) : Except ValidationError String :=
  let t := jsTrim word
  if t.data.isEmpty then .error .EmptyInput
  else if t.data.any (fun c => c = ' ') then .error .MultiWordInput
  else if !(t.data.all isAsciiLetter) then .error .NonLetterCharacters
  else if t.data.length < 2 then .error .TooShort
  else if t.data.length > 20 then .error .TooLong
  else .ok t

/-- The regex `^[A-Za-z]{2,20}$` of the specification, as a decidable
predicate on strings. -/
def matchesWordRegex (s : String) : Bool :=
  s.data.all isAsciiLetter && decide (2 ≤ s.data.length) && decide (s.data.length ≤ 20)

/-- One pass of the `slugify` character pipeline: the replacement
character `'-'` is first turned into a space (so existing hyphens merge
with adjacent whitespace runs), then `strict` mode keeps only ASCII
alphanumerics and whitespace. -/
def slugKeep (c : Char) : Bool :=
  isAsciiAlphanum c || isJsWs c

/-- Collapse every maximal whitespace run to a single `'-'`
(the final `replace(/[\s-]+/g, '-')` of `slugify`; after `strict`
filtering the runs consist of whitespace only).  The `Bool` flag records
whether the previous character belonged to a run. -/
def collapseWsAux : Bool → List Char → List Char
  | _, [] => []
  | inRun, c :: rest =>
    if isJsWs c then
      if inRun then collapseWsAux true rest
      else '-' :: collapseWsAux true rest
    else c :: collapseWsAux false rest

/-- Model of `slugify` with the lower and strict options, as both
handlers call it, modelled for inputs whose characters are outside `slugify`'s
special-character map (identity on ASCII): turn `'-'` into a space, keep
only ASCII alphanumerics and whitespace, trim, collapse whitespace runs
to single hyphens, lowercase. -/
def slugifyLowerStrict (s : String) : String :=
  let mapped := s.data.map (fun c => if c = '-' then ' ' else c)
  let kept := mapped.filter slugKeep
  let trimmed := jsTrimList kept
  String.mk ((collapseWsAux false trimmed).map Char.toLower)

/-- The candidate sequence scanned by the manual handler's uniqueness
loop: the base slug itself, then `base-1`, `base-2`, ... -/
def slugCandidate (base : String) (k : Nat) : String :=
  if k = 0 then base else base ++ "-" ++ Nat.repr k

/-- The `while (existingSlugs.includes(newSlug))` loop of the manual
handler: starting from candidate index `idx`, return the first candidate
not contained in `existing`.  The loop in the source always terminates
because the candidates are pairwise distinct and `existing` is finite;
the explicit `fuel` (instantiated with `existing.length + 1`, enough to
reach a free candidate) makes the recursion structural. -/
def slugLoop (base : String) (existing : List String) : Nat → Nat → String
  | idx, 0 => slugCandidate base idx
  | idx, fuel + 1 =>
    if existing.contains (slugCandidate base idx) then
      slugLoop base existing (idx + 1) fuel
    else slugCandidate base idx

/-- Slug disambiguation of the manual handler (`part_004` lines 49-66):
if the prefix query returned no rows the base slug is used unchanged,
otherwise the first free candidate is taken. -/
def makeUniqueSlug (base : String) (existing : List String) : String :=
  if existing.isEmpty then base
  else slugLoop base existing 0 (existing.length + 1)

/-- Slug generation from a title against an existing slug set. -/
def uniqueSlugFromTitle (title : String) (existing : List String) : String :=
  makeUniqueSlug (slugifyLowerStrict title) existing

/-- The hash-stripping replacement (regex: leading hashes plus following
whitespace, replaced by nothing): if the line starts with at least one
`'#'`, drop the leading hashes and the whitespace following them;
otherwise the line is unchanged. -/
def stripLeadingHashes (l : String) : String :=
  match l.data with
  | '#' :: _ => String.mk ((l.data.dropWhile (fun c => c = '#')).dropWhile isJsWs)
  | _ => l

/-- The non-empty-line filter of the title-extraction step (split at
newlines, keep the lines whose trim is truthy): the lines that are not
whitespace-only. -/
def nonEmptyLines (s : String) : List String :=
  (jsLines s).filter (fun l => !(jsTrim l).data.isEmpty)

/-- Title extraction of the AI pipeline (`generate.ts` lines 66-67):
strip the leading hashes from the first non-whitespace line, falling back
to the synthesized title when there is no such line or stripping empties
it. -/
def extractTitle (blogContent word : String) : String :=
  match nonEmptyLines blogContent with
  | [] => "Blog about " ++ word
  | l :: _ =>
    let t := stripLeadingHashes l
    if t.data.isEmpty then "Blog about " ++ word else t

/-- The `tags` field of the manual-create request body: a JSON array of
strings, a string, or anything else (absent / other type). -/
inductive TagsField where
  | arr (tags : List String)
  | str (s : String)
  | absent
deriving DecidableEq

/-- Tag normalization of the manual handler (`part_004` lines 74-76):
an array is used as-is, a string is split on commas with each piece
trimmed and empty pieces dropped, anything else becomes `[]`. -/
def normalizeTags : TagsField → List String
  | .arr l => l
  | .str s =>
    ((splitChar ',' s.data).map (fun l => jsTrim (String.mk l))).filter
      (fun t => !t.data.isEmpty)
  | .absent => []

/-- The row both handlers pass to the database insert on the blogs table. -/
structure BlogRow where
  title : String
  slug : String
  content_md : String
  content_html : String
  tags : List String
  user_id : Option String
deriving DecidableEq

/-- The database error object as the manual handler inspects it
(`error.code`, `error.message`; the `details`/`hint` fields are only
echoed into the 500 payload and are not modelled). -/
structure DbError where
  code : String
  message : String
deriving DecidableEq

/-- Outcome of `supabase.auth.getUser(token)`: an auth error, a missing
user, or a resolved user id. -/
inductive AuthResult where
  | authErr
  | noUser
  | ok (uid : String)
deriving DecidableEq

/-- A handler run: the HTTP response (status, `message` payload field,
`blog` payload field) together with the effect trace — whether the
completion provider was called, the rows passed to the database insert
in call order, and the rows the database reported as stored. -/
structure ApiResult where
  status : Nat
  message : Option String
  blog : Option BlogRow
  providerCalled : Bool
  attempts : List BlogRow
  stored : List BlogRow
deriving DecidableEq

/-- The `405 Method not allowed` response both handlers return before
touching the request body. -/
def resp405 : ApiResult :=
  { status := 405, message := some "Method not allowed", blog := none,
    providerCalled := false, attempts := [], stored := [] }

/-- An early-return response produced before the completion provider or
the database is reached. -/
def earlyExit (status : Nat) (msg : String) : ApiResult :=
  { status := status, message := some msg, blog := none,
    providerCalled := false, attempts := [], stored := [] }

/-- The single 401 message of the generate endpoint. -/
def genAuthFailMsg : String := "Authentication required. Please sign in to create blogs."

/-- The row the AI pipeline inserts (`generate.ts` lines 65-90): title
extracted from the generated markdown, slug derived from that title with
no uniqueness check, HTML rendered from the same markdown that is stored,
tags `[word.toLowerCase(), 'ai-generated']`. -/
def genRow (render : String → String) (trimmedWord blogContent uid : String) : BlogRow :=
  let title := extractTitle blogContent trimmedWord
  { title := title
  , slug := slugifyLowerStrict title
  , content_md := blogContent
  , content_html := render blogContent
  , tags := [jsToLower trimmedWord, "ai-generated"]
  , user_id := some uid }

/-- The generate endpoint handler (`pages/api/generate.ts`).  `bodyWord`
is `req.body.word` (`none` when absent or not a string), `resolveUser`
is the identity service, `provider` the completion client
(`generateBlogWithAI`, whose throws surface as `Except.error`), `render`
the markdown renderer `marked`, `doInsert` the database insert. -/
def genHandler (method : String) (bodyWord : Option String)
    (authHeader : Option String) (resolveUser : String → AuthResult)
    (provider : String → Except String String) (render : String → String)
    (doInsert : BlogRow → Except DbError BlogRow) : ApiResult :=
  if method ≠ "POST" then resp405
  else
    match bodyWord with
    | none => earlyExit 400 "Word is required"
    | some word =>
      if word.data.isEmpty then earlyExit 400 "Word is required"
      else
        match validateWord word with
        | .error e => earlyExit 400 (validationMessage e)
        | .ok trimmedWord =>
          match authHeader with
          | none => earlyExit 401 genAuthFailMsg
          | some h =>
            let token := bearerToken h
            if token.data.isEmpty then earlyExit 401 genAuthFailMsg
            else
              match resolveUser token with
              | .authErr => earlyExit 401 genAuthFailMsg
              | .noUser => earlyExit 401 genAuthFailMsg
              | .ok uid =>
                match provider trimmedWord with
                | .error _ =>
                  { status := 500, message := some "Failed to generate blog", blog := none,
                    providerCalled := true, attempts := [], stored := [] }
                | .ok blogContent =>
                  let row := genRow render trimmedWord blogContent uid
                  match doInsert row with
                  | .error _ =>
                    { status := 500, message := some "Failed to save blog", blog := none,
                      providerCalled := true, attempts := [row], stored := [] }
                  | .ok d =>
                    { status := 200, message := none, blog := some d,
                      providerCalled := true, attempts := [row], stored := [d] }

/-- The result of the manual handler's slug prefix query (SQL LIKE with
the base slug followed by a percent wildcard): the existing slugs that
start with the base slug. -/
def manualExisting (title : String) (storeSlugs : List String) : List String :=
  storeSlugs.filter (fun s => (slugifyLowerStrict title).data.isPrefixOf s.data)

/-- The slug the manual handler stores: the base slug disambiguated
against the prefix-query result. -/
def manualSlug (title : String) (storeSlugs : List String) : String :=
  makeUniqueSlug (slugifyLowerStrict title) (manualExisting title storeSlugs)

/-- The row the manual handler inserts (`part_004` lines 84-95). -/
def manualRow (render : String → String) (title content : String) (tagsF : TagsField)
    (storeSlugs : List String) (uid : String) : BlogRow :=
  { title := title
  , slug := manualSlug title storeSlugs
  , content_md := content
  , content_html := render content
  , tags := normalizeTags tagsF ++ ["manual"]
  , user_id := some uid }

/-- The manual-create endpoint handler (`part_004`).  On a first-insert
failure with code `PGRST204` whose message mentions `user_id`, the insert
is retried once with the same row minus `user_id`. -/
def manualHandler (method : String) (bodyTitle bodyContent : Option String)
    (bodyTags : TagsField) (authHeader : Option String)
    (resolveUser : String → AuthResult) (render : String → String)
    (storeSlugs : List String)
    (doInsert : BlogRow → Except DbError BlogRow) : ApiResult :=
  if method ≠ "POST" then resp405
  else
    match bodyTitle, bodyContent with
    | some title, some content =>
      if title.data.isEmpty || content.data.isEmpty then
        earlyExit 400 "Title and content are required"
      else
        match authHeader with
        | none => earlyExit 401 "Authorization header required"
        | some h =>
          let token := bearerToken h
          if token.data.isEmpty then earlyExit 401 "Token is required"
          else
            match resolveUser token with
            | .authErr => earlyExit 401 "Authentication failed"
            | .noUser => earlyExit 401 "User not found"
            | .ok uid =>
              let row := manualRow render title content bodyTags storeSlugs uid
              match doInsert row with
              | .ok d =>
                { status := 200, message := none, blog := some d,
                  providerCalled := false, attempts := [row], stored := [d] }
              | .error e =>
                if e.code = "PGRST204" && jsIncludesSub e.message "user_id" then
                  let row2 := { row with user_id := none }
                  match doInsert row2 with
                  | .ok d =>
                    { status := 200, message := none, blog := some d,
                      providerCalled := false, attempts := [row, row2], stored := [d] }
                  | .error _ =>
                    { status := 500, message := some "Failed to save blog", blog := none,
                      providerCalled := false, attempts := [row, row2], stored := [] }
                else
                  { status := 500, message := some "Failed to save blog", blog := none,
                    providerCalled := false, attempts := [row], stored := [] }
    | _, _ => earlyExit 400 "Title and content are required"

/-- The rows attempted satisfy the claimed freshness against a slug set
when none of their slugs is already present. -/
def freshAgainstB (res : ApiResult) (existingSlugs : List String) : Bool :=
  res.attempts.all (fun r => !existingSlugs.contains r.slug)

/-- Dropping a prefix by a predicate no element satisfies changes nothing. -/
lemma dropWhile_eq_self_of_not (p : Char → Bool) (l : List Char)
    (h : ∀ c ∈ l, p c = false) : l.dropWhile p = l := by
  cases l with
  | nil => rfl
  | cons a t => simp [List.dropWhile_cons, h a (List.mem_cons_self a t)]

/-- Trimming a string with no whitespace characters changes nothing. -/
lemma jsTrimList_eq_self (l : List Char) (h : ∀ c ∈ l, isJsWs c = false) :
    jsTrimList l = l := by
  unfold jsTrimList
  rw [dropWhile_eq_self_of_not _ _ h,
    dropWhile_eq_self_of_not _ _ (fun c hc => h c (List.mem_reverse.mp hc)),
    List.reverse_reverse]

/-- An ASCII letter is not a JavaScript whitespace character. -/
lemma isAsciiLetter_not_ws (c : Char) (h : isAsciiLetter c = true) :
    isJsWs c = false := by
  by_contra hws
  rw [Bool.not_eq_false] at hws
  simp only [isJsWs, Bool.or_eq_true, decide_eq_true_eq] at hws
  rcases hws with (((((((rfl | rfl) | rfl) | rfl) | rfl) | rfl) | rfl) | rfl) <;>
    exact absurd h (by decide)

/-- C1.  Every string matching `^[A-Za-z]{2,20}$` is accepted by the
server-side word validator, and the word handed to the rest of the
pipeline is the trimmed original string itself (trimming such a string
changes nothing, so casing and spelling are preserved and no rejection
branch is taken). -/
theorem c1_regex_words_accepted (s : String) (h : matchesWordRegex s = true) :
    validateWord s = Except.ok s := by
  simp only [matchesWordRegex, Bool.and_eq_true, decide_eq_true_eq] at h
  obtain ⟨⟨hall, hlen2⟩, hlen20⟩ := h
  have hletters : ∀ c ∈ s.data, isAsciiLetter c = true := by
    simpa using hall
  have hws : ∀ c ∈ s.data, isJsWs c = false :=
    fun c hc => isAsciiLetter_not_ws c (hletters c hc)
  have htrim : jsTrim s = s := by
    show String.mk (jsTrimList s.data) = s
    rw [jsTrimList_eq_self s.data hws]
  have hne : s.data.isEmpty = false := by
    cases hd : s.data with
    | nil => rw [hd] at hlen2; simp at hlen2
    | cons a t => rfl
  have hnospace : s.data.any (fun c => c = ' ') = false := by
    by_contra hsp
    rw [Bool.not_eq_false, List.any_eq_true] at hsp
    obtain ⟨c, hc, hcsp⟩ := hsp
    rw [decide_eq_true_eq] at hcsp
    subst hcsp
    exact absurd (hletters _ hc) (by decide)
  have hl2 : ¬ s.length < 2 := Nat.not_lt.mpr hlen2
  have hl20 : ¬ 20 < s.length := Nat.not_lt.mpr hlen20
  simp only [validateWord]
  rw [htrim]
  simp [hne, hnospace, hall, hl2, hl20]

/-- Witness for C1 at the concrete word "Freedom". -/
theorem c1_witness :
    matchesWordRegex "Freedom" = true ∧ validateWord "Freedom" = Except.ok "Freedom" :=
  ⟨by decide, c1_regex_words_accepted "Freedom" (by decide)⟩

/-- C2 fails as stated: the string "ab " contains a space character, yet
the validator accepts it (the trailing space is removed by the initial
trim, so the `MultiWordInput` branch is never reached). -/
theorem c2_counterexample :
    jsIncludesSub "ab " " " = true ∧ validateWord "ab " = Except.ok "ab" ∧
    validateWord "ab " ≠ Except.error ValidationError.MultiWordInput :=
  ⟨by decide, by decide, by decide⟩

/-- C2 amended: every input string that still contains a space character
after trimming (an interior space) is rejected with `MultiWordInput`,
regardless of what other characters it contains. -/
theorem c2_amended_interior_space (s : String)
    (h : (jsTrim s).data.any (fun c => c = ' ') = true) :
    validateWord s = Except.error ValidationError.MultiWordInput := by
  have hne : (jsTrim s).data.isEmpty = false := by
    obtain ⟨c, hc, _⟩ := List.any_eq_true.mp h
    cases hd : (jsTrim s).data with
    | nil => rw [hd] at hc; simp at hc
    | cons a t => rfl
  simp only [validateWord]
  simp [hne, h]

/-- Witness for the amended C2 at the concrete input "hello world". -/
theorem c2_amended_witness :
    (jsTrim "hello world").data.any (fun c => c = ' ') = true ∧
    validateWord "hello world" = Except.error ValidationError.MultiWordInput :=
  ⟨by decide, c2_amended_interior_space "hello world" (by decide)⟩

/-- The uniqueness loop reaches the first free candidate at or after its
starting index, provided the fuel covers the distance. -/
lemma slugLoop_finds (base : String) (existing : List String) :
    ∀ (fuel idx k : Nat), idx ≤ k → k - idx ≤ fuel →
      existing.contains (slugCandidate base k) = false →
      (∀ j, idx ≤ j → j < k → existing.contains (slugCandidate base j) = true) →
      slugLoop base existing idx fuel = slugCandidate base k := by
  intro fuel
  induction fuel with
  | zero =>
    intro idx k hik hfuel hfree hmin
    have hik' : k = idx := by omega
    subst hik'
    rfl
  | succ n ih =>
    intro idx k hik hfuel hfree hmin
    by_cases hmem : existing.contains (slugCandidate base idx) = true
    · have hik' : idx < k := by
        rcases Nat.lt_or_ge idx k with hlt | hge
        · exact hlt
        · have heq : idx = k := by omega
          subst heq
          rw [hfree] at hmem
          exact absurd hmem (by decide)
      simp only [slugLoop, hmem, if_true]
      exact ih (idx + 1) k hik' (by omega) hfree
        (fun j hj1 hj2 => hmin j (by omega) hj2)
    · have heq : idx = k := by
        by_contra hne
        exact hmem (hmin idx (Nat.le_refl idx) (by omega))
      subst heq
      rw [Bool.not_eq_true] at hmem
      simp only [slugLoop, hmem]
      rfl

/-- The function `makeUniqueSlug` returns the first free candidate
whenever one exists
within `existing.length` steps (which is always the case, the candidates
being pairwise distinct). -/
lemma makeUniqueSlug_finds (base : String) (existing : List String) (k : Nat)
    (hk : k ≤ existing.length)
    (hfree : existing.contains (slugCandidate base k) = false)
    (hmin : ∀ j, j < k → existing.contains (slugCandidate base j) = true) :
    makeUniqueSlug base existing = slugCandidate base k := by
  unfold makeUniqueSlug
  by_cases hemp : existing.isEmpty
  · have hnil : existing = [] := List.isEmpty_iff.mp hemp
    subst hnil
    simp only [List.length_nil, Nat.le_zero] at hk
    subst hk
    simp [slugCandidate]
  · simp only [hemp, if_false]
    exact slugLoop_finds base existing (existing.length + 1) 0 k (Nat.zero_le k)
      (by omega) hfree (fun j _ hj => hmin j hj)

/-- C3.  Slug generation is deterministic (the base slug is a function of
the title alone), and disambiguation scans `base`, `base-1`, `base-2`, ...
returning the first candidate absent from the existing slugs; in
particular, with existing slugs `{"freedom", "freedom-1"}` the title
"Freedom" yields `"freedom-2"`. -/
theorem c3_slug_generation :
    (∀ t₁ t₂ : String, t₁ = t₂ → slugifyLowerStrict t₁ = slugifyLowerStrict t₂)
    ∧ (∀ (base : String) (existing : List String) (k : Nat),
        k ≤ existing.length →
        existing.contains (slugCandidate base k) = false →
        (∀ j, j < k → existing.contains (slugCandidate base j) = true) →
        makeUniqueSlug base existing = slugCandidate base k)
    ∧ uniqueSlugFromTitle "Freedom" ["freedom", "freedom-1"] = "freedom-2" :=
  ⟨fun t₁ t₂ h => by rw [h],
   fun base existing k hk hfree hmin => makeUniqueSlug_finds base existing k hk hfree hmin,
   by decide⟩

/-- Witness for C3: the disambiguation clause applied at base slug
"freedom" against `{"freedom", "freedom-1"}` with free index 2. -/
theorem c3_witness :
    makeUniqueSlug "freedom" ["freedom", "freedom-1"] = "freedom-2" :=
  (c3_slug_generation.2.1 "freedom" ["freedom", "freedom-1"] 2 (by decide) (by decide)
    (by decide)).trans (by decide)

/-- The synthesized fallback title is never empty. -/
lemma blogAbout_ne_empty (word : String) :
    ("Blog about " ++ word).data.isEmpty = false := by
  cases word
  rfl

/-- C5.  The extracted title is the first non-whitespace line of the
generated text with the leading `#` markers (and the whitespace following
them) stripped; when there is no such line, or stripping empties it, the
fallback title (the word prefixed by Blog about) is used — and consequently the extracted
title is never the empty string. -/
theorem c5_title_extraction :
    (∀ content word : String, (extractTitle content word).data.isEmpty = false)
    ∧ (∀ (content word l : String) (ls : List String),
        nonEmptyLines content = l :: ls →
        (stripLeadingHashes l).data.isEmpty = false →
        extractTitle content word = stripLeadingHashes l)
    ∧ (∀ (content word l : String) (ls : List String),
        nonEmptyLines content = l :: ls →
        (stripLeadingHashes l).data.isEmpty = true →
        extractTitle content word = "Blog about " ++ word)
    ∧ (∀ content word : String, nonEmptyLines content = [] →
        extractTitle content word = "Blog about " ++ word) := by
  refine ⟨?_, ?_, ?_, ?_⟩
  · intro content word
    unfold extractTitle
    cases hnl : nonEmptyLines content with
    | nil => exact blogAbout_ne_empty word
    | cons l ls =>
      by_cases ht : (stripLeadingHashes l).data.isEmpty = true
      · simp only [ht, if_true]
        exact blogAbout_ne_empty word
      · rw [Bool.not_eq_true] at ht
        simp only [ht, if_false]
        exact ht
  · intro content word l ls hnl ht
    unfold extractTitle
    rw [hnl]
    simp [ht]
  · intro content word l ls hnl ht
    unfold extractTitle
    rw [hnl]
    simp [ht]
  · intro content word hnl
    unfold extractTitle
    rw [hnl]

/-- Witness for C5 at a generated text whose first line is a heading. -/
theorem c5_witness :
    extractTitle "# Hi\nBody" "w" = stripLeadingHashes "# Hi" :=
  c5_title_extraction.2.1 "# Hi\nBody" "w" "# Hi" ["Body"] (by decide) (by decide)

/-- Every run of the generate handler passes either no row or exactly one
`genRow` to the database insert. -/
lemma gen_attempts_shape (method : String) (bodyWord authHeader : Option String)
    (resolveUser : String → AuthResult) (provider : String → Except String String)
    (render : String → String) (doInsert : BlogRow → Except DbError BlogRow) :
    (genHandler method bodyWord authHeader resolveUser provider render doInsert).attempts = []
    ∨ ∃ t content uid,
        (genHandler method bodyWord authHeader resolveUser provider render doInsert).attempts
          = [genRow render t content uid] := by
  simp only [genHandler]
  repeat' split
  all_goals first
    | exact Or.inl rfl
    | exact Or.inr ⟨_, _, _, rfl⟩

/-- Every run of the manual handler passes either no row, one
`manualRow`, or a `manualRow` followed by its `user_id`-less copy to the
database insert. -/
lemma manual_attempts_shape (method : String) (bodyTitle bodyContent : Option String)
    (bodyTags : TagsField) (authHeader : Option String)
    (resolveUser : String → AuthResult) (render : String → String)
    (storeSlugs : List String) (doInsert : BlogRow → Except DbError BlogRow) :
    (manualHandler method bodyTitle bodyContent bodyTags authHeader resolveUser render
        storeSlugs doInsert).attempts = []
    ∨ ∃ title content uid,
        (manualHandler method bodyTitle bodyContent bodyTags authHeader resolveUser render
            storeSlugs doInsert).attempts
          = [manualRow render title content bodyTags storeSlugs uid]
        ∨ (manualHandler method bodyTitle bodyContent bodyTags authHeader resolveUser render
            storeSlugs doInsert).attempts
          = [manualRow render title content bodyTags storeSlugs uid,
             { manualRow render title content bodyTags storeSlugs uid with user_id := none }] := by
  simp only [manualHandler]
  repeat' split
  all_goals first
    | exact Or.inl rfl
    | exact Or.inr ⟨_, _, _, Or.inl rfl⟩
    | exact Or.inr ⟨_, _, _, Or.inr rfl⟩

/-- C6.  On both creation paths, every row passed to the database insert
stores as `content_html` exactly the renderer's output on the same
markdown string it stores as `content_md`. -/
theorem c6_html_matches_markdown :
    (∀ (method : String) (bodyWord authHeader : Option String)
        (resolveUser : String → AuthResult) (provider : String → Except String String)
        (render : String → String) (doInsert : BlogRow → Except DbError BlogRow),
      ∀ r ∈ (genHandler method bodyWord authHeader resolveUser provider render
          doInsert).attempts,
        r.content_html = render r.content_md)
    ∧ (∀ (method : String) (bodyTitle bodyContent : Option String) (bodyTags : TagsField)
        (authHeader : Option String) (resolveUser : String → AuthResult)
        (render : String → String) (storeSlugs : List String)
        (doInsert : BlogRow → Except DbError BlogRow),
      ∀ r ∈ (manualHandler method bodyTitle bodyContent bodyTags authHeader resolveUser
          render storeSlugs doInsert).attempts,
        r.content_html = render r.content_md) := by
  constructor
  · intro method bodyWord authHeader resolveUser provider render doInsert r hr
    rcases gen_attempts_shape method bodyWord authHeader resolveUser provider render doInsert
      with hnil | ⟨t, content, uid, heq⟩
    · rw [hnil] at hr
      simp at hr
    · rw [heq, List.mem_singleton] at hr
      subst hr
      rfl
  · intro method bodyTitle bodyContent bodyTags authHeader resolveUser render storeSlugs
      doInsert r hr
    rcases manual_attempts_shape method bodyTitle bodyContent bodyTags authHeader resolveUser
        render storeSlugs doInsert
      with hnil | ⟨title, content, uid, heq | heq⟩
    · rw [hnil] at hr
      simp at hr
    · rw [heq, List.mem_singleton] at hr
      subst hr
      rfl
    · rw [heq] at hr
      simp only [List.mem_cons, List.mem_singleton, List.not_mem_nil, or_false] at hr
      rcases hr with rfl | rfl <;> rfl

/-- Witness for C6 at a concrete successful generate run. -/
theorem c6_witness :
    (genRow (fun md => md) "hi" "# Hello" "user-1").content_html
      = (genRow (fun md => md) "hi" "# Hello" "user-1").content_md :=
  c6_html_matches_markdown.1 "POST" (some "hi") (some "Bearer tok")
    (fun _ => AuthResult.ok "user-1") (fun _ => Except.ok "# Hello") (fun md => md)
    (fun r => Except.ok r) (genRow (fun md => md) "hi" "# Hello" "user-1") (by decide)

/-- A word the validator accepts is in particular not the empty string
(the `!word` presence check of the handler cannot fire). -/
lemma validateWord_ok_ne (w t : String) (h : validateWord w = Except.ok t) :
    w.data.isEmpty = false := by
  by_contra hcon
  rw [Bool.not_eq_false] at hcon
  have hnil : w.data = [] := List.isEmpty_iff.mp hcon
  have hdata : (jsTrim w).data = [] := by
    show jsTrimList w.data = []
    rw [hnil]
    rfl
  simp [validateWord, hdata] at h

/-- C7.  Rows inserted by the AI pipeline carry exactly the tags
`[word.toLowerCase(), "ai-generated"]` for the validated word, and every
row inserted by the manual path carries the normalized user tags with
`"manual"` appended. -/
theorem c7_tags_provenance :
    (∀ (w t h uid content : String) (resolveUser : String → AuthResult)
        (provider : String → Except String String) (render : String → String)
        (doInsert : BlogRow → Except DbError BlogRow),
      validateWord w = Except.ok t →
      (bearerToken h).data.isEmpty = false →
      resolveUser (bearerToken h) = AuthResult.ok uid →
      provider t = Except.ok content →
      (genHandler "POST" (some w) (some h) resolveUser provider render doInsert).attempts.map
          (fun r => r.tags)
        = [[jsToLower t, "ai-generated"]])
    ∧ (∀ (method : String) (bodyTitle bodyContent : Option String) (bodyTags : TagsField)
        (authHeader : Option String) (resolveUser : String → AuthResult)
        (render : String → String) (storeSlugs : List String)
        (doInsert : BlogRow → Except DbError BlogRow),
      ∀ r ∈ (manualHandler method bodyTitle bodyContent bodyTags authHeader resolveUser
          render storeSlugs doInsert).attempts,
        r.tags = normalizeTags bodyTags ++ ["manual"]) := by
  constructor
  · intro w t h uid content resolveUser provider render doInsert hval htok hres hprov
    have hw := validateWord_ok_ne w t hval
    have hPOST : ¬ ("POST" ≠ "POST") := by simp
    simp only [genHandler, if_neg hPOST, hw, Bool.false_eq_true, if_false, hval, htok, hres,
      hprov]
    cases hins : doInsert (genRow render t content uid) <;> simp [genRow]
  · intro method bodyTitle bodyContent bodyTags authHeader resolveUser render storeSlugs
      doInsert r hr
    rcases manual_attempts_shape method bodyTitle bodyContent bodyTags authHeader resolveUser
        render storeSlugs doInsert
      with hnil | ⟨title, content, uid, heq | heq⟩
    · rw [hnil] at hr
      simp at hr
    · rw [heq, List.mem_singleton] at hr
      subst hr
      rfl
    · rw [heq] at hr
      simp only [List.mem_cons, List.mem_singleton, List.not_mem_nil, or_false] at hr
      rcases hr with rfl | rfl <;> rfl

/-- Witness for C7 at a concrete successful generate run. -/
theorem c7_witness :
    (genHandler "POST" (some "hi") (some "Bearer tok") (fun _ => AuthResult.ok "user-1")
        (fun _ => Except.ok "# Hello") (fun md => md) (fun r => Except.ok r)).attempts.map
      (fun r => r.tags) = [[jsToLower "hi", "ai-generated"]] :=
  c7_tags_provenance.1 "hi" "hi" "Bearer tok" "user-1" "# Hello"
    (fun _ => AuthResult.ok "user-1") (fun _ => Except.ok "# Hello") (fun md => md)
    (fun r => Except.ok r) (by decide) (by decide) rfl rfl

/-- C4 fails as stated: on the AI generation path the slug is *not*
disambiguated against existing slugs.  With an existing slug "hello" in
the store, a successful generate run for word "hi" whose generated text
is titled "Hello" passes a row with the already-present slug "hello" to
the insert (and the model insert accepts it), violating "the inserted
slug is not already present in the store". -/
theorem c4_counterexample :
    (genHandler "POST" (some "hi") (some "Bearer tok") (fun _ => AuthResult.ok "user-1")
        (fun _ => Except.ok "# Hello") (fun md => md) (fun r => Except.ok r)).status = 200
    ∧ (genHandler "POST" (some "hi") (some "Bearer tok") (fun _ => AuthResult.ok "user-1")
        (fun _ => Except.ok "# Hello") (fun md => md) (fun r => Except.ok r)).attempts.map
        (fun r => r.slug) = ["hello"]
    ∧ freshAgainstB
        (genHandler "POST" (some "hi") (some "Bearer tok") (fun _ => AuthResult.ok "user-1")
          (fun _ => Except.ok "# Hello") (fun md => md) (fun r => Except.ok r))
        ["hello"] = false :=
  ⟨by decide, by decide, by decide⟩

/-- A list is a `isPrefixOf`-prefix of itself followed by anything. -/
lemma isPrefixOf_self_append (l t : List Char) : l.isPrefixOf (l ++ t) = true := by
  induction l with
  | nil => simp
  | cons a as ih => simp [ih]

/-- Appending strings concatenates their character data. -/
lemma String_data_append (a b : String) : (a ++ b).data = a.data ++ b.data := by
  cases a
  cases b
  rfl

/-- Every disambiguation candidate starts with the base slug, so it is
returned by the slug prefix query. -/
lemma slugCandidate_isPrefixOf (base : String) (k : Nat) :
    base.data.isPrefixOf (slugCandidate base k).data = true := by
  unfold slugCandidate
  by_cases hk : k = 0
  · simp [hk]
  · simp only [hk, if_false]
    rw [String_data_append, String_data_append, List.append_assoc]
    exact isPrefixOf_self_append _ _

/-- C4 amended: the manual-create path disambiguates the title-derived
slug against the prefix query's result, so the row it inserts has a slug
not present anywhere in the store (whenever a free suffix index exists
within the scanned range, which the pairwise-distinct candidates always
provide); the AI generation path derives its slug from the extracted
title alone and performs no disambiguation — the row it inserts carries
`slugify(title)` regardless of what the store contains. -/
theorem c4_amended_slug_policy :
    (∀ (render : String → String) (title content : String) (tagsF : TagsField)
        (storeSlugs : List String) (uid : String) (k : Nat),
      k ≤ (manualExisting title storeSlugs).length →
      (manualExisting title storeSlugs).contains
          (slugCandidate (slugifyLowerStrict title) k) = false →
      (∀ j, j < k → (manualExisting title storeSlugs).contains
          (slugCandidate (slugifyLowerStrict title) j) = true) →
      storeSlugs.contains
          (manualRow render title content tagsF storeSlugs uid).slug = false)
    ∧ (∀ (w t h uid content : String) (resolveUser : String → AuthResult)
        (provider : String → Except String String) (render : String → String)
        (doInsert : BlogRow → Except DbError BlogRow),
      validateWord w = Except.ok t →
      (bearerToken h).data.isEmpty = false →
      resolveUser (bearerToken h) = AuthResult.ok uid →
      provider t = Except.ok content →
      (genHandler "POST" (some w) (some h) resolveUser provider render doInsert).attempts.map
          (fun r => r.slug)
        = [slugifyLowerStrict (extractTitle content t)]) := by
  constructor
  · intro render title content tagsF storeSlugs uid k hk hfree hmin
    have hslug : (manualRow render title content tagsF storeSlugs uid).slug
        = slugCandidate (slugifyLowerStrict title) k := by
      show manualSlug title storeSlugs = _
      exact makeUniqueSlug_finds _ _ k hk hfree hmin
    rw [hslug]
    by_contra hcon
    rw [Bool.not_eq_false] at hcon
    have hmem : slugCandidate (slugifyLowerStrict title) k ∈ storeSlugs := by
      simpa using hcon
    have hmemf : slugCandidate (slugifyLowerStrict title) k
        ∈ manualExisting title storeSlugs := by
      unfold manualExisting
      rw [List.mem_filter]
      exact ⟨hmem, slugCandidate_isPrefixOf _ _⟩
    have hcontains : (manualExisting title storeSlugs).contains
        (slugCandidate (slugifyLowerStrict title) k) = true := by
      simpa using hmemf
    rw [hfree] at hcontains
    exact absurd hcontains (by decide)
  · intro w t h uid content resolveUser provider render doInsert hval htok hres hprov
    have hw := validateWord_ok_ne w t hval
    have hPOST : ¬ ("POST" ≠ "POST") := by simp
    simp only [genHandler, if_neg hPOST, hw, Bool.false_eq_true, if_false, hval, htok, hres,
      hprov]
    cases hins : doInsert (genRow render t content uid) <;> simp [genRow]

/-- Witness for the amended C4: the manual clause at title "Freedom"
against the store `{"freedom", "freedom-1"}`, free index 2. -/
theorem c4_amended_witness :
    (["freedom", "freedom-1"] : List String).contains
        (manualRow (fun md => md) "Freedom" "Body" TagsField.absent
          ["freedom", "freedom-1"] "u").slug = false :=
  c4_amended_slug_policy.1 (fun md => md) "Freedom" "Body" TagsField.absent
    ["freedom", "freedom-1"] "u" 2 (by decide) (by decide) (by decide)

/-- C8.  A POST to the generate endpoint with a word the validator
accepts but no bearer credential — or a credential the identity service
rejects — yields the 401 early exit: the completion provider is not
called and no row is passed to the database. -/
theorem c8_auth_gate (w t : String) (authHeader : Option String)
    (resolveUser : String → AuthResult) (provider : String → Except String String)
    (render : String → String) (doInsert : BlogRow → Except DbError BlogRow)
    (hval : validateWord w = Except.ok t)
    (hfail : authHeader = none
      ∨ ∃ h, authHeader = some h ∧
          ((bearerToken h).data.isEmpty = true
            ∨ resolveUser (bearerToken h) = AuthResult.authErr
            ∨ resolveUser (bearerToken h) = AuthResult.noUser)) :
    genHandler "POST" (some w) authHeader resolveUser provider render doInsert
      = earlyExit 401 genAuthFailMsg := by
  have hw := validateWord_ok_ne w t hval
  have hPOST : ¬ ("POST" ≠ "POST") := by simp
  rcases hfail with rfl | ⟨h, rfl, hcase⟩
  · simp [genHandler, hPOST, hw, hval]
  · by_cases he : (bearerToken h).data.isEmpty
    · simp [genHandler, hPOST, hw, hval, he]
    · rw [Bool.not_eq_true] at he
      rcases hcase with htok | hres | hres
      · rw [htok] at he
        exact absurd he (by decide)
      · simp [genHandler, hPOST, hw, hval, he, hres]
      · simp [genHandler, hPOST, hw, hval, he, hres]

/-- Witness for C8: the valid word "Freedom" with no authorization
header. -/
theorem c8_witness :
    genHandler "POST" (some "Freedom") none (fun _ => AuthResult.authErr)
        (fun _ => Except.ok "text") (fun md => md) (fun r => Except.ok r)
      = earlyExit 401 genAuthFailMsg :=
  c8_auth_gate "Freedom" "Freedom" none (fun _ => AuthResult.authErr)
    (fun _ => Except.ok "text") (fun md => md) (fun r => Except.ok r)
    (by decide) (Or.inl rfl)

/-- C9.  When the first manual-create insert fails with code `PGRST204`
and a message mentioning `user_id`, the handler retries exactly once with
the same row stripped of `user_id`, and a successful retry produces a 200
response carrying the stored post. -/
theorem c9_pgrst204_retry (render : String → String) (title content : String)
    (tagsF : TagsField) (h uid : String) (resolveUser : String → AuthResult)
    (storeSlugs : List String) (doInsert : BlogRow → Except DbError BlogRow)
    (e : DbError) (d : BlogRow)
    (htitle : title.data.isEmpty = false)
    (hcontent : content.data.isEmpty = false)
    (htok : (bearerToken h).data.isEmpty = false)
    (hres : resolveUser (bearerToken h) = AuthResult.ok uid)
    (hfirst : doInsert (manualRow render title content tagsF storeSlugs uid)
      = Except.error e)
    (hcode : e.code = "PGRST204")
    (hmsg : jsIncludesSub e.message "user_id" = true)
    (hretry : doInsert { manualRow render title content tagsF storeSlugs uid with
        user_id := none } = Except.ok d) :
    manualHandler "POST" (some title) (some content) tagsF (some h) resolveUser render
        storeSlugs doInsert
      = { status := 200, message := none, blog := some d, providerCalled := false,
          attempts := [manualRow render title content tagsF storeSlugs uid,
            { manualRow render title content tagsF storeSlugs uid with user_id := none }],
          stored := [d] } := by
  have hPOST : ¬ ("POST" ≠ "POST") := by simp
  simp [manualHandler, hPOST, htitle, hcontent, htok, hres, hfirst, hcode, hmsg, hretry]

/-- Witness for C9: a concrete insert that rejects rows carrying a
`user_id` with a PGRST204 schema-cache error and accepts the retry. -/
theorem c9_witness :
    manualHandler "POST" (some "Hi") (some "Body") TagsField.absent (some "Bearer tk")
        (fun _ => AuthResult.ok "u1") (fun md => md) []
        (fun r => if r.user_id = none then Except.ok r
          else Except.error { code := "PGRST204", message := "user_id missing" })
      = { status := 200, message := none,
          blog := some { manualRow (fun md => md) "Hi" "Body" TagsField.absent [] "u1" with
            user_id := none },
          providerCalled := false,
          attempts := [manualRow (fun md => md) "Hi" "Body" TagsField.absent [] "u1",
            { manualRow (fun md => md) "Hi" "Body" TagsField.absent [] "u1" with
              user_id := none }],
          stored := [{ manualRow (fun md => md) "Hi" "Body" TagsField.absent [] "u1" with
            user_id := none }] } :=
  c9_pgrst204_retry (fun md => md) "Hi" "Body" TagsField.absent "Bearer tk" "u1"
    (fun _ => AuthResult.ok "u1") []
    (fun r => if r.user_id = none then Except.ok r
      else Except.error { code := "PGRST204", message := "user_id missing" })
    { code := "PGRST204", message := "user_id missing" }
    { manualRow (fun md => md) "Hi" "Body" TagsField.absent [] "u1" with user_id := none }
    (by decide) (by decide) (by decide) rfl (by decide) rfl (by decide) (by decide)

/-- C10.  For every method other than POST, both handlers return the 405
"Method not allowed" response — a constant that does not depend on the
request body, performs no validation, calls no provider, and passes no
row to the database. -/
theorem c10_method_gate (method : String) (hm : method ≠ "POST")
    (bodyWord bodyTitle bodyContent : Option String) (bodyTags : TagsField)
    (authHeader : Option String) (resolveUser : String → AuthResult)
    (provider : String → Except String String) (render : String → String)
    (storeSlugs : List String) (doInsertG doInsertM : BlogRow → Except DbError BlogRow) :
    genHandler method bodyWord authHeader resolveUser provider render doInsertG = resp405
    ∧ manualHandler method bodyTitle bodyContent bodyTags authHeader resolveUser render
        storeSlugs doInsertM = resp405 := by
  constructor <;> simp [genHandler, manualHandler, hm]

/-- Witness for C10 at method "GET". -/
theorem c10_witness :
    genHandler "GET" none none (fun _ => AuthResult.authErr) (fun _ => Except.error "")
        (fun md => md) (fun r => Except.ok r) = resp405
    ∧ manualHandler "GET" none none TagsField.absent none (fun _ => AuthResult.authErr)
        (fun md => md) [] (fun r => Except.ok r) = resp405 :=
  c10_method_gate "GET" (by decide) none none none TagsField.absent none
    (fun _ => AuthResult.authErr) (fun _ => Except.error "") (fun md => md) []
    (fun r => Except.ok r) (fun r => Except.ok r)
